import Mathlib

/-!
Verification of `roles/torrenter/files/transmission-healthcheck/check.py`:
a shallow embedding of the health-check agent's core logic (error
rendering/truncation, external port probing, RPC token renewal, and the
per-cycle diagnosis) together with theorems about the spec's claims.

Python strings are modelled by Lean `String` (a sequence of characters);
Python slicing `s[:n]` (nonnegative `n`) is `pytake`, `str.strip()` is
`pyStrip` (ASCII whitespace), and `f"...{x}..."` interpolation of an
optional value that may be `None` is `pyStr`.
-/

deriving instance DecidableEq for Except

namespace Healthcheck

/-- Python `s[:n]` for a nonnegative slice bound: the first `n` characters. -/
def pytake (s : String) (n : Nat) : String := ⟨s.data.take n⟩

/-- ASCII whitespace, as stripped by Python `str.strip()`. -/
def pyIsSpace (c : Char) : Bool :=
  c = ' ' || c = '\t' || c = '\n' || c = '\x0b' || c = '\x0c' || c = '\r'

/-- Python `str.strip()`: remove leading and trailing whitespace. -/
def pyStrip (s : String) : String :=
  ⟨((s.data.dropWhile pyIsSpace).reverse.dropWhile pyIsSpace).reverse⟩

/-- Rendering of an optional string in a Python f-string: `None` prints as "None". -/
def pyStr : Option String → String
  | none => "None"
  | some s => s

/-- Python truthiness of an optional string (`None` and `""` are falsy). -/
def pyTruthyStr : Option String → Bool
  | none => false
  | some s => s != ""

/-- A torrent record as returned by the daemon's `torrent-get` call with the
requested fields `id`, `name`, `error`, `errorString`. -/
structure Torrent where
  id : Int
  name : String
  error : Int := 0
  errorString : String
  deriving DecidableEq, Repr

/-- The `mismatch_ports` payload dict `{'gluetun': g, 'transmission': t}`. -/
structure MismatchPorts where
  gluetun : Int
  transmission : Int
  deriving DecidableEq, Repr

/-- The port-check error dict: `{'error': ..., 'content': ...}` or
`{'error': ..., 'exception': ...}` as built by `check_external_port`. -/
structure PortcheckError where
  error : String
  content : Option String := none
  exception : Option String := none
  deriving DecidableEq, Repr

/-- `HealthcheckError(message, diag_context, torrent, mismatch_ports, portcheck_error)`:
the exception carrying optional structured payloads. -/
structure HealthcheckError where
  message : String
  diag_context : Option String := none
  torrent : Option Torrent := none
  mismatch_ports : Option MismatchPorts := none
  portcheck_error : Option PortcheckError := none
  deriving DecidableEq, Repr

/-- `self.portcheck_error.get('content') or self.portcheck_error.get('exception')`:
Python `or` falls through on `None` and on the empty string. -/
def PortcheckError.detail (pc : PortcheckError) : Option String :=
  match pc.content with
  | some c => if c = "" then pc.exception else some c
  | none => pc.exception

/-- `HealthcheckError.full_message`: the complete, untruncated error message. -/
def HealthcheckError.full_message (e : HealthcheckError) : String :=
  match e.portcheck_error with
  | some pc => e.message ++ "(" ++ pyStr pc.detail ++ ") | " ++ pyStr e.diag_context
  | none =>
    match e.mismatch_ports with
    | some mp =>
      e.message ++ "(G:" ++ toString mp.gluetun ++ "|T:" ++ toString mp.transmission
        ++ ") | " ++ pyStr e.diag_context
    | none =>
      match e.torrent with
      | some t =>
        e.message ++ " T:" ++ toString t.id ++ "(" ++ t.name ++ ") - " ++ t.errorString
          ++ " | " ++ pyStr e.diag_context
      | none =>
        if pyTruthyStr e.diag_context then e.message ++ " | " ++ pyStr e.diag_context
        else e.message

/-- `HealthcheckError.hc_message`: the truncated (≤ 100 characters) message for
the notification channel, with prioritized truncation per payload kind. -/
def HealthcheckError.hc_message (e : HealthcheckError) : String :=
  let full_msg := e.full_message
  if full_msg.length ≤ 100 then full_msg
  else
    match e.portcheck_error with
    | some pc =>
      let msg := e.message ++ "(" ++ pyStr pc.detail ++ ")"
      if msg.length ≤ 100 then msg else pytake msg 100
    | none =>
      match e.mismatch_ports with
      | some mp =>
        let msg := e.message ++ "(G:" ++ toString mp.gluetun ++ "|T:"
          ++ toString mp.transmission ++ ")"
        if msg.length ≤ 100 then msg else pytake msg 100
      | none =>
        match e.torrent with
        | some t =>
          let p1 := e.message
          let p2 := " T:" ++ toString t.id ++ "(" ++ t.name ++ ")"
          let p3 := ": " ++ t.errorString
          let msg := p1 ++ p2 ++ p3
          if msg.length ≤ 100 then msg
          else
            let available_len : Int := 100 - ((p1 ++ p2).length : Int)
            if 4 < available_len then
              p1 ++ p2 ++ (pytake p3 (available_len - 3).toNat ++ "...")
            else
              let p2_trunc := " T:" ++ toString t.id
              let available_len2 : Int := 100 - ((p1 ++ p2_trunc).length : Int)
              if 4 < available_len2 then
                p1 ++ p2_trunc ++ (pytake p3 (available_len2 - 3).toNat ++ "...")
              else pytake (p1 ++ p2_trunc) 100
        | none => pytake full_msg 97 ++ "..."

/-- The outcome of the HTTP GET issued by `check_external_port`: either a
response (with status code and body text) or a raised
`requests.RequestException`, identified by its class name. -/
inductive ProbeOutcome where
  | httpOk (status : Nat) (body : String)
  | transportError (excName : String)
  deriving DecidableEq, Repr

/-- `requests.Response.raise_for_status()` raises `HTTPError` exactly for
status codes in `[400, 600)`. -/
def raiseForStatus (status : Nat) : Bool := 400 ≤ status && status < 600

/-- `check_external_port(port)`: classify the probe service's answer.
Returns the pair `(port_status_bool, port_check_error)`; `raise_for_status`
raising `HTTPError` is caught by the `except requests.RequestException`
clause, so an error status yields the service-down classification with the
exception class name `HTTPError`. -/
def check_external_port (o : ProbeOutcome) : Option Bool × Option PortcheckError :=
  match o with
  | .transportError n =>
    (none, some { error := "E:PORTCHECK_DOWN", exception := some n })
  | .httpOk status body =>
    if raiseForStatus status then
      (none, some { error := "E:PORTCHECK_DOWN", exception := some "HTTPError" })
    else
      let content := pyStrip body
      if content = "1" then (some true, none)
      else if content = "0" then (some false, none)
      else (none, some { error := "E:PORTCHECK_UNEXPECTED_RESP", content := some content })

example : check_external_port (.httpOk 200 "1") = (some true, none) := by decide
example : check_external_port (.httpOk 200 "1\n") = (some true, none) := by decide
example : check_external_port (.httpOk 200 "0") = (some false, none) := by decide
example : check_external_port (.httpOk 500 "0") =
    (none, some { error := "E:PORTCHECK_DOWN", exception := some "HTTPError" }) := by decide
example : check_external_port (.httpOk 200 "banana") =
    (none, some { error := "E:PORTCHECK_UNEXPECTED_RESP", content := some "banana" }) := by
  decide

example :
    HealthcheckError.full_message
      { message := "E:CLOSED", diag_context := some "P:51413(CLOSED)" } =
      "E:CLOSED | P:51413(CLOSED)" := by decide

/-! ## The per-cycle diagnosis (the body of `main`'s `while` loop)

One iteration of `main` is modelled as a function of the data the cycle
would observe from its collaborators: the gateway's two JSON answers
(collapsed into one fetch that either raises or yields the two parsed
fields), the daemon's three RPC answers (collapsed into one fetch that
either raises or yields the parsed bundle), and the port-probe HTTP
outcome.  JSON numbers that are only ever interpolated into the context
string (speeds, active count) are modelled by their rendered text. -/

/-- The two fields read from the gateway's JSON responses:
`gluetun_port_data.get("port")` and `gluetun_vpn_data.get("status")`. -/
structure GluetunData where
  port : Option Int := none
  status : Option String := none
  deriving DecidableEq, Repr

/-- The fields read from the daemon's three RPC responses: the session's
`peer-port`, the stats rendered into the context string, and the torrent
list. -/
structure DaemonBundle where
  peer_port : Option Int := none
  active_count : String := "N/A"
  dl_speed : String := "N/A"
  ul_speed : String := "N/A"
  torrents : List Torrent := []
  deriving DecidableEq, Repr

/-- Everything one cycle observes.  A `.error m` fetch models the underlying
HTTP/RPC call raising an exception whose `str()` is `m` (caught by `main`'s
blanket `except Exception` branch). -/
structure CycleInputs where
  gluetun : Except String GluetunData
  rpc : Except String DaemonBundle
  probe : ProbeOutcome
  deriving DecidableEq, Repr

/-- One cycle's outcome: success (with the context summary), a raised
`HealthcheckError`, or an unexpected exception with message `m`. -/
inductive CycleResult where
  | ok (ctx : String)
  | fail (e : HealthcheckError)
  | exn (m : String)
  deriving DecidableEq, Repr

/-- `port_status_str = "OPEN" if port_status_bool else "CLOSED"`:
Python truthiness sends both `False` and `None` to "CLOSED". -/
def port_status_str (b : Option Bool) : String :=
  if b = some true then "OPEN" else "CLOSED"

/-- The context summary
`f"P:{transmission_port}({port_status_str}) VPN:{gluetun_vpn_status} | DL/UL:{dl_speed}/{ul_speed} | Act:{active_count}"`. -/
def mk_diag_ctx (tp : Int) (pss vpn dl ul act : String) : String :=
  "P:" ++ toString tp ++ "(" ++ pss ++ ") VPN:" ++ vpn ++ " | DL/UL:" ++ dl
    ++ "/" ++ ul ++ " | Act:" ++ act

/-- The error raised when the gateway response lacks a truthy port or status. -/
def gluetunParseError : HealthcheckError :=
  { message := "E:GLUETUN_PARSE | Missing 'port' or 'status' in Gluetun API response" }

/-- The error raised when the daemon session data lacks `peer-port`. -/
def trParseError : HealthcheckError :=
  { message := "E:TR_PARSE | Missing 'peer-port' in Transmission session data" }

/-- One iteration of `main`'s loop (steps 1–5 and the check cascade).
`if not all([gluetun_port, gluetun_vpn_status])` is Python truthiness:
`None`, `0` and `""` all fail it; the `peer-port` check is `is None`. -/
def run_cycle (i : CycleInputs) : CycleResult :=
  match i.gluetun with
  | .error m => .exn m
  | .ok g =>
    match g.port, g.status with
    | some gp, some vs =>
      if gp = 0 ∨ vs = "" then .fail gluetunParseError
      else
        match i.rpc with
        | .error m => .exn m
        | .ok d =>
          match d.peer_port with
          | none => .fail trParseError
          | some tp =>
            let system_error_torrents := d.torrents.filter (fun t => t.error == 3)
            let pr := check_external_port i.probe
            let ctx := mk_diag_ctx tp (port_status_str pr.1) vs d.dl_speed d.ul_speed
              d.active_count
            match pr.2 with
            | some err =>
              .fail { message := err.error, diag_context := some ctx,
                      portcheck_error := some err }
            | none =>
              if gp ≠ tp then
                .fail { message := "E:MISMATCH", diag_context := some ctx,
                        mismatch_ports := some { gluetun := gp, transmission := tp } }
              else if ¬ (pr.1 = some true) then
                .fail { message := "E:CLOSED", diag_context := some ctx }
              else
                match system_error_torrents with
                | [] => .ok ctx
                | t :: _ =>
                  .fail { message := "E:SYS_ERR", diag_context := some ctx,
                          torrent := some t }
    | _, _ => .fail gluetunParseError

/-- The message body `main` sends to the notification channel on a failing
cycle: `e.hc_message` for a `HealthcheckError`, and `error_message[:100]`
for an unexpected exception (the `except Exception` branch). -/
def fail_ping : CycleResult → Option String
  | .ok _ => none
  | .fail e => some e.hc_message
  | .exn m => some (pytake m 100)

/-- Does the cycle end in a failure carrying a `mismatch_ports` payload
(the spec's `PortMismatch` diagnosis)? -/
def CycleResult.isPortMismatch : CycleResult → Bool
  | .fail e => e.mismatch_ports.isSome
  | _ => false

/-- Does the cycle end in a failure carrying a `torrent` payload
(the spec's `SystemErrorTorrent` diagnosis)? -/
def CycleResult.isSystemErrorTorrent : CycleResult → Bool
  | .fail e => e.torrent.isSome
  | _ => false

/-- Does the cycle end in a failure carrying a `portcheck_error` payload
(the spec's `PortCheckFailure` diagnosis)? -/
def CycleResult.isPortCheckFailure : CycleResult → Bool
  | .fail e => e.portcheck_error.isSome
  | _ => false

/-! ## The RPC client (`run_transmission_rpc` and the session handshake) -/

/-- The outcome of the unauthenticated GET in `get_transmission_session_id`:
a response exposing the (optional) `X-Transmission-Session-Id` header, or a
raised `requests.RequestException` with the given class name.  (`requests.get`
never raises `HTTPError` on its own, so the `isinstance` branch inside the
handler is unreachable and is not modelled as a separate case.) -/
inductive GetOutcome where
  | resp (sessionId : Option String)
  | exc (name : String)
  deriving DecidableEq, Repr

/-- `get_transmission_session_id`: the header value on a response, or a
`ConnectionError` wrapping a transport failure. -/
def get_transmission_session_id : GetOutcome → Except String (Option String)
  | .resp sid => .ok sid
  | .exc name =>
    .error ("Failed to connect to Transmission to get session ID: " ++ name)

/-- The outcome of one `session.post` to the RPC endpoint: a response
(status, optional fresh session-id header, JSON body rendered abstractly)
or a raised transport-level `requests.RequestException`. -/
inductive PostOutcome where
  | resp (status : Nat) (sessionId : Option String) (body : String)
  | exc (name : String)
  deriving DecidableEq, Repr

/-- How a call to `run_transmission_rpc` can fail, mirroring the exceptions
the Python function lets escape.  `httpError` is a `requests.HTTPError`
from `raise_for_status` (a daemon-level error: the spec's `RpcError`);
`requestException` is a transport error raised by the retry POST inside the
409 handler, which no surrounding clause catches. -/
inductive RpcFailure where
  | valueError (m : String)
  | connectionError (m : String)
  | httpError (status : Nat)
  | requestException (name : String)
  deriving DecidableEq, Repr

/-- What one call to `run_transmission_rpc` did: its result, the session's
token header afterwards, how many POSTs it issued, and how many times it
ran `session.headers.update` with a session id. -/
structure RpcCallRecord where
  result : Except RpcFailure String
  finalToken : Option String
  postsMade : Nat
  tokenUpdates : Nat
  deriving DecidableEq, Repr

/-- The `try`/`except` body of `run_transmission_rpc`: first POST, and on a
409 `HTTPError` one token update plus one retry POST whose own errors
propagate unhandled.  `upd` counts prior header updates (1 if the call just
acquired a session id). -/
def rpc_post_phase (method : String) (tok : Option String) (upd : Nat)
    (posts : Nat → PostOutcome) : RpcCallRecord :=
  match posts 0 with
  | .exc name =>
    { result := .error (.connectionError
        ("Transmission RPC call '" ++ method ++ "' failed: " ++ name)),
      finalToken := tok, postsMade := 1, tokenUpdates := upd }
  | .resp s sid body =>
    if raiseForStatus s then
      if s = 409 then
        match sid with
        | none =>
          { result := .error (.valueError
              "Could not renew expired Transmission Session ID."),
            finalToken := tok, postsMade := 1, tokenUpdates := upd }
        | some ns =>
          if ns = "" then
            { result := .error (.valueError
                "Could not renew expired Transmission Session ID."),
              finalToken := tok, postsMade := 1, tokenUpdates := upd }
          else
            match posts 1 with
            | .exc name2 =>
              { result := .error (.requestException name2),
                finalToken := some ns, postsMade := 2, tokenUpdates := upd + 1 }
            | .resp s2 _ body2 =>
              if raiseForStatus s2 then
                { result := .error (.httpError s2),
                  finalToken := some ns, postsMade := 2, tokenUpdates := upd + 1 }
              else
                { result := .ok body2,
                  finalToken := some ns, postsMade := 2, tokenUpdates := upd + 1 }
      else
        { result := .error (.httpError s),
          finalToken := tok, postsMade := 1, tokenUpdates := upd }
    else
      { result := .ok body, finalToken := tok, postsMade := 1, tokenUpdates := upd }

/-- `run_transmission_rpc(session, method, arguments)`: acquire a session id
if the session has none, then POST with one 409-renewal retry.  `tok` is the
session's current `X-Transmission-Session-Id` header, `g` the outcome of the
acquisition GET (consulted only when `tok` is absent), `posts n` the daemon's
answer to the `n`-th POST this call issues. -/
def run_transmission_rpc (method : String) (tok : Option String) (g : GetOutcome)
    (posts : Nat → PostOutcome) : RpcCallRecord :=
  match tok with
  | some t => rpc_post_phase method (some t) 0 posts
  | none =>
    match get_transmission_session_id g with
    | .error m =>
      { result := .error (.connectionError m), finalToken := none,
        postsMade := 0, tokenUpdates := 0 }
    | .ok sid =>
      match sid with
      | none =>
        { result := .error (.valueError "Could not retrieve Transmission Session ID."),
          finalToken := none, postsMade := 0, tokenUpdates := 0 }
      | some s =>
        if s = "" then
          { result := .error (.valueError "Could not retrieve Transmission Session ID."),
            finalToken := none, postsMade := 0, tokenUpdates := 0 }
        else rpc_post_phase method (some s) 1 posts

/-! ## Helper lemmas -/

theorem length_pytake (s : String) (n : Nat) : (pytake s n).length = min n s.length := by
  cases s with
  | mk l => exact List.length_take n l

theorem length_ellipsis : ("..." : String).length = 3 := rfl

/-! ## Claims about the message renderer -/

/-- Claim C2: every `HealthcheckError` — any combination of port-check,
mismatch-ports and torrent payloads, any message and any context string —
has a bounded message (`hc_message`) of at most 100 characters. -/
theorem hc_message_length_le (e : HealthcheckError) : e.hc_message.length ≤ 100 := by
  obtain ⟨msg, ctx, tor, mp, pc⟩ := e
  unfold HealthcheckError.hc_message
  dsimp only
  split
  next h => exact h
  next h =>
    rcases pc with _ | pc
    · rcases mp with _ | mp
      · rcases tor with _ | t
        · simp only [String.length_append, length_pytake, length_ellipsis]
          omega
        · dsimp only
          split
          next h2 => exact h2
          next h2 =>
            split
            next h3 =>
              simp only [String.length_append] at h3
              simp only [String.length_append, length_pytake, length_ellipsis]
              omega
            next h3 =>
              split
              next h4 =>
                simp only [String.length_append] at h4
                simp only [String.length_append, length_pytake, length_ellipsis]
                omega
              next h4 =>
                simp only [length_pytake]
                omega
      · dsimp only
        split
        next h2 => exact h2
        next h2 => simp only [length_pytake]; omega
    · dsimp only
      split
      next h2 => exact h2
      next h2 => simp only [length_pytake]; omega

/-- Claim C8: whenever the full message fits in 100 characters, the bounded
message is exactly the full message, for every payload combination. -/
theorem hc_message_eq_full_of_short (e : HealthcheckError)
    (h : e.full_message.length ≤ 100) : e.hc_message = e.full_message := by
  unfold HealthcheckError.hc_message
  dsimp only
  rw [if_pos h]

/-- Witness for claim C8: a concrete short failure where the bounded message
equals the full message. -/
theorem hc_message_eq_full_of_short_witness :
    HealthcheckError.hc_message { message := "E:CLOSED", diag_context := some "P:51413(CLOSED)" }
      = HealthcheckError.full_message
          { message := "E:CLOSED", diag_context := some "P:51413(CLOSED)" } ∧
    (HealthcheckError.full_message
        { message := "E:CLOSED", diag_context := some "P:51413(CLOSED)" }).length ≤ 100 :=
  ⟨hc_message_eq_full_of_short _ (by decide), by decide⟩

/-! ## Claims about the external port prober -/

/-- Counterexample to claim C4 as stated: a response whose body is `"1\n"`
(not the exact string `"1"`) still probes as Open, because the code strips
whitespace before comparing; so "Open exactly when the response body is
`"1"`" and "Indeterminate(unexpected-response) for any other body" both
fail at this input. -/
theorem check_external_port_strips_cex :
    check_external_port (.httpOk 200 "1\n") = (some true, none) ∧ "1\n" ≠ "1" := by
  constructor
  · decide
  · decide

/-- Claim C4 (amended): for a response delivered with a non-error status,
the probe is Open exactly when the whitespace-stripped body is "1", Closed
exactly when the stripped body is "0", and otherwise Indeterminate with the
unexpected-response code carrying the stripped body; any transport failure
is Indeterminate with the service-down code carrying the exception class
name; a Closed result can only arise from a stripped body "0", so an
Indeterminate outcome is never coerced to Closed. -/
theorem check_external_port_characterization (status : Nat) (body excName : String)
    (h : ¬ (400 ≤ status ∧ status < 600)) :
    check_external_port (.httpOk status body) =
      (if pyStrip body = "1" then (some true, none)
       else if pyStrip body = "0" then (some false, none)
       else (none, some { error := "E:PORTCHECK_UNEXPECTED_RESP",
                          content := some (pyStrip body) })) ∧
    check_external_port (.transportError excName) =
      (none, some { error := "E:PORTCHECK_DOWN", exception := some excName }) ∧
    ((check_external_port (.httpOk status body)).1 = some false → pyStrip body = "0") := by
  have hb : raiseForStatus status = false := by
    simp only [raiseForStatus, Bool.and_eq_false_iff, decide_eq_false_iff_not, not_le, not_lt]
    omega
  refine ⟨?_, rfl, ?_⟩
  · simp [check_external_port, hb]
  · intro hclosed
    simp only [check_external_port, hb, Bool.false_eq_true, if_false] at hclosed
    by_cases h1 : pyStrip body = "1"
    · simp [h1] at hclosed
    · by_cases h0 : pyStrip body = "0"
      · exact h0
      · simp [h1, h0] at hclosed

/-- Witness for claim C4's amended theorem at a concrete status and bodies. -/
theorem check_external_port_characterization_witness :
    check_external_port (.httpOk 200 " 0 ") = (some false, none) ∧
    check_external_port (.transportError "ConnectTimeout") =
      (none, some { error := "E:PORTCHECK_DOWN", exception := some "ConnectTimeout" }) := by
  have h := check_external_port_characterization 200 " 0 " "ConnectTimeout" (by decide)
  refine ⟨?_, h.2.1⟩
  rw [h.1]
  decide

/-- Counterexample to claim C10 as stated: a 304 response is non-2xx, yet
`raise_for_status` does not raise for it, so the probe classifies it by
body content as Indeterminate(unexpected-response), not as the service
being down. -/
theorem check_external_port_304_cex :
    ¬ (200 ≤ 304 ∧ 304 < 300) ∧
    check_external_port (.httpOk 304 "") =
      (none, some { error := "E:PORTCHECK_UNEXPECTED_RESP", content := some "" }) ∧
    "E:PORTCHECK_UNEXPECTED_RESP" ≠ "E:PORTCHECK_DOWN" := by
  refine ⟨by decide, by decide, by decide⟩

/-- Claim C10 (amended): a reply with a 4xx/5xx status — the statuses for
which `raise_for_status` raises `HTTPError` — probes as Indeterminate with
the service-down code `E:PORTCHECK_DOWN` and the exception class name
`HTTPError` as detail, never as unexpected-response and never as Closed. -/
theorem check_external_port_http_error (status : Nat) (body : String)
    (h4 : 400 ≤ status) (h6 : status < 600) :
    check_external_port (.httpOk status body) =
      (none, some { error := "E:PORTCHECK_DOWN", exception := some "HTTPError" }) := by
  have hb : raiseForStatus status = true := by
    simp only [raiseForStatus, Bool.and_eq_true, decide_eq_true_eq]
    omega
  simp [check_external_port, hb]

/-- Witness for claim C10's amended theorem: a 500 reply probes as
service-down. -/
theorem check_external_port_http_error_witness :
    check_external_port (.httpOk 500 "1") =
      (none, some { error := "E:PORTCHECK_DOWN", exception := some "HTTPError" }) :=
  check_external_port_http_error 500 "1" (by decide) (by decide)

/-! ## Claims about the RPC client -/

/-- Claim C3: with a session token already attached, a first POST answered
409 with a fresh nonempty token header makes `run_transmission_rpc` update
the attached token to the fresh one exactly once and retry exactly once
(two POSTs in total, whatever the daemon would answer beyond them): if the
retry succeeds its body is returned, and if the retry is answered 409 again
the call fails with the propagated HTTP 409 error (the spec's `RpcError`)
after exactly those two POSTs — no further retry. -/
theorem rpc_409_renewal (method t0 t1 b0 : String) (g : GetOutcome)
    (posts : Nat → PostOutcome) (ht : t1 ≠ "")
    (h0 : posts 0 = .resp 409 (some t1) b0) :
    (∀ s2 sid2 b2, posts 1 = .resp s2 sid2 b2 → ¬ (400 ≤ s2 ∧ s2 < 600) →
      run_transmission_rpc method (some t0) g posts =
        { result := .ok b2, finalToken := some t1, postsMade := 2, tokenUpdates := 1 }) ∧
    (∀ sid2 b2, posts 1 = .resp 409 sid2 b2 →
      run_transmission_rpc method (some t0) g posts =
        { result := .error (.httpError 409), finalToken := some t1,
          postsMade := 2, tokenUpdates := 1 }) := by
  have h409 : raiseForStatus 409 = true := by decide
  constructor
  · intro s2 sid2 b2 h1 hs
    have hb2 : raiseForStatus s2 = false := by
      simp only [raiseForStatus, Bool.and_eq_false_iff, decide_eq_false_iff_not, not_le, not_lt]
      omega
    unfold run_transmission_rpc rpc_post_phase
    rw [h0, h1]
    simp [h409, ht, hb2]
  · intro sid2 b2 h1
    unfold run_transmission_rpc rpc_post_phase
    rw [h0, h1]
    simp [h409, ht]

/-- A daemon whose first POST answer is a 409 carrying a fresh token and
whose second answer succeeds. -/
def renewalPostsOk : Nat → PostOutcome := fun n =>
  if n = 0 then .resp 409 (some "fresh-token") "conflict" else .resp 200 none "result-json"

/-- A daemon that answers 409 to both the first POST and the retry. -/
def renewalPosts409 : Nat → PostOutcome := fun n =>
  if n = 0 then .resp 409 (some "fresh-token") "conflict"
  else .resp 409 (some "another-token") "conflict"

/-- Witness for claim C3 at concrete daemons: the renewed call succeeds with
one token update and two POSTs; the doubly-conflicting call fails with the
409 HTTP error after the same single retry. -/
theorem rpc_409_renewal_witness :
    run_transmission_rpc "session-get" (some "old-token") (.resp none) renewalPostsOk =
      { result := .ok "result-json", finalToken := some "fresh-token",
        postsMade := 2, tokenUpdates := 1 } ∧
    run_transmission_rpc "session-get" (some "old-token") (.resp none) renewalPosts409 =
      { result := .error (.httpError 409), finalToken := some "fresh-token",
        postsMade := 2, tokenUpdates := 1 } :=
  ⟨(rpc_409_renewal "session-get" "old-token" "fresh-token" "conflict" (.resp none)
      renewalPostsOk (by decide) rfl).1 200 none "result-json" rfl (by decide),
   (rpc_409_renewal "session-get" "old-token" "fresh-token" "conflict" (.resp none)
      renewalPosts409 (by decide) rfl).2 (some "another-token") "conflict" rfl⟩

/-! ## Claims about the diagnosis cycle -/

/-- If the probe produced a port-check error, the boolean slot of
`check_external_port`'s answer is `None`. -/
theorem psb_none_of_pce_some (pr : ProbeOutcome) (err : PortcheckError)
    (h : (check_external_port pr).2 = some err) : (check_external_port pr).1 = none := by
  cases pr with
  | transportError n => rfl
  | httpOk status body =>
    by_cases hb : raiseForStatus status
    · simp [check_external_port, hb]
    · by_cases h1 : pyStrip body = "1"
      · simp [check_external_port, hb, h1] at h
      · by_cases h0 : pyStrip body = "0"
        · simp [check_external_port, hb, h1, h0] at h
        · simp [check_external_port, hb, h1, h0]

/-- A cycle state with a gateway/daemon port mismatch, a system-error
torrent, and an Indeterminate port probe. -/
def mismatchSysErrIndet : CycleInputs :=
  { gluetun := .ok { port := some 100, status := some "running" },
    rpc := .ok { peer_port := some 200,
                 torrents := [{ id := 1, name := "a", error := 3, errorString := "disk full" }] },
    probe := .transportError "ConnectTimeout" }

/-- Counterexample to claim C1's "in particular" part as stated: a cycle
state with both a port mismatch (gateway 100 vs daemon 200) and a
system-error torrent, whose probe was Indeterminate, diagnoses as
`PortCheckFailure` — not `PortMismatch`. -/
theorem cycle_priority_cex :
    (run_cycle mismatchSysErrIndet).isPortMismatch = false ∧
    (run_cycle mismatchSysErrIndet).isPortCheckFailure = true ∧
    (100 : Int) ≠ 200 ∧
    (([{ id := 1, name := "a", error := 3, errorString := "disk full" }] : List Torrent).filter
      (fun t => t.error == 3)).length > 0 := by
  refine ⟨by decide, by decide, by decide, by decide⟩

/-- Claim C1 (amended): on a cycle whose gateway and daemon data parse, the
checks fire in the exact priority order — port-check error, then gateway
port ≠ daemon peer port, then probe Closed (not truthy-Open), then
system-error torrent count > 0, else Success — short-circuiting at the
first match; in particular, with both a mismatch and a system-error torrent
the diagnosis is `PortMismatch` provided the probe produced no port-check
error, and it is never `SystemErrorTorrent` regardless of the probe. -/
theorem cycle_priority (gp tp : Int) (vs : String) (d : DaemonBundle) (pr : ProbeOutcome)
    (hgp : gp ≠ 0) (hvs : vs ≠ "") (hpp : d.peer_port = some tp) :
    (∀ err, (check_external_port pr).2 = some err →
      (run_cycle ⟨.ok ⟨some gp, some vs⟩, .ok d, pr⟩).isPortCheckFailure = true ∧
      (run_cycle ⟨.ok ⟨some gp, some vs⟩, .ok d, pr⟩).isPortMismatch = false ∧
      (run_cycle ⟨.ok ⟨some gp, some vs⟩, .ok d, pr⟩).isSystemErrorTorrent = false) ∧
    ((check_external_port pr).2 = none → gp ≠ tp →
      (run_cycle ⟨.ok ⟨some gp, some vs⟩, .ok d, pr⟩).isPortMismatch = true) ∧
    ((check_external_port pr).2 = none → gp = tp → ¬ ((check_external_port pr).1 = some true) →
      run_cycle ⟨.ok ⟨some gp, some vs⟩, .ok d, pr⟩ =
        .fail { message := "E:CLOSED",
                diag_context := some (mk_diag_ctx tp (port_status_str (check_external_port pr).1)
                  vs d.dl_speed d.ul_speed d.active_count) }) ∧
    ((check_external_port pr).2 = none → gp = tp → (check_external_port pr).1 = some true →
      ∀ t rest, d.torrents.filter (fun t => t.error == 3) = t :: rest →
      (run_cycle ⟨.ok ⟨some gp, some vs⟩, .ok d, pr⟩).isSystemErrorTorrent = true) ∧
    ((check_external_port pr).2 = none → gp = tp → (check_external_port pr).1 = some true →
      d.torrents.filter (fun t => t.error == 3) = [] →
      run_cycle ⟨.ok ⟨some gp, some vs⟩, .ok d, pr⟩ =
        .ok (mk_diag_ctx tp (port_status_str (check_external_port pr).1)
          vs d.dl_speed d.ul_speed d.active_count)) ∧
    (gp ≠ tp → (run_cycle ⟨.ok ⟨some gp, some vs⟩, .ok d, pr⟩).isSystemErrorTorrent = false) := by
  refine ⟨?_, ?_, ?_, ?_, ?_, ?_⟩
  · intro err herr
    simp [run_cycle, hgp, hvs, hpp, herr, CycleResult.isPortCheckFailure,
      CycleResult.isPortMismatch, CycleResult.isSystemErrorTorrent]
  · intro hnone hne
    simp [run_cycle, hgp, hvs, hpp, hnone, hne, CycleResult.isPortMismatch]
  · intro hnone heq hnot
    subst heq
    simp [run_cycle, hgp, hvs, hpp, hnone, hnot, CycleResult.isPortMismatch]
  · intro hnone heq hopen t rest hfil
    subst heq
    simp [run_cycle, hgp, hvs, hpp, hnone, hopen, hfil, CycleResult.isSystemErrorTorrent]
  · intro hnone heq hopen hfil
    subst heq
    simp [run_cycle, hgp, hvs, hpp, hnone, hopen, hfil]
  · intro hne
    rcases h2 : (check_external_port pr).2 with _ | err
    · simp [run_cycle, hgp, hvs, hpp, h2, hne, CycleResult.isSystemErrorTorrent]
    · simp [run_cycle, hgp, hvs, hpp, h2, CycleResult.isSystemErrorTorrent]

/-- Daemon data with a system-error torrent, used to witness claim C1. -/
def sysErrBundle : DaemonBundle :=
  { peer_port := some 200,
    torrents := [{ id := 1, name := "a", error := 3, errorString := "disk full" }] }

/-- Witness for claim C1's amended theorem: with an Open probe (no
port-check error), a 100-vs-200 mismatch and a system-error torrent, the
cycle diagnoses `PortMismatch` and not `SystemErrorTorrent`. -/
theorem cycle_priority_witness :
    (run_cycle ⟨.ok ⟨some 100, some "running"⟩, .ok sysErrBundle,
      .httpOk 200 "1"⟩).isPortMismatch = true ∧
    (run_cycle ⟨.ok ⟨some 100, some "running"⟩, .ok sysErrBundle,
      .httpOk 200 "1"⟩).isSystemErrorTorrent = false := by
  have h := cycle_priority 100 200 "running" sysErrBundle (.httpOk 200 "1")
    (by decide) (by decide) rfl
  exact ⟨h.2.1 (by decide) (by decide), h.2.2.2.2.2 (by decide)⟩

/-- Claim C6: whenever the probe is Indeterminate (it produced a port-check
error), the failure raised is the port-check failure, yet its context
summary renders the port slot with the same "CLOSED" text a Closed probe
would produce, because `"OPEN" if port_status_bool else "CLOSED"` sends the
falsy `None` to "CLOSED". -/
theorem indeterminate_displays_closed (gp tp : Int) (vs : String) (d : DaemonBundle)
    (pr : ProbeOutcome) (err : PortcheckError)
    (hgp : gp ≠ 0) (hvs : vs ≠ "") (hpp : d.peer_port = some tp)
    (herr : (check_external_port pr).2 = some err) :
    run_cycle ⟨.ok ⟨some gp, some vs⟩, .ok d, pr⟩ =
      .fail { message := err.error,
              diag_context :=
                some (mk_diag_ctx tp "CLOSED" vs d.dl_speed d.ul_speed d.active_count),
              portcheck_error := some err } ∧
    port_status_str (check_external_port pr).1 = port_status_str (some false) := by
  have hnone := psb_none_of_pce_some pr err herr
  constructor
  · simp [run_cycle, hgp, hvs, hpp, herr, hnone, port_status_str]
  · rw [hnone]
    rfl

/-- Witness for claim C6: an unexpected probe body yields a
`PortCheckFailure` whose context summary says "CLOSED". -/
theorem indeterminate_displays_closed_witness :
    run_cycle ⟨.ok ⟨some 51413, some "connected"⟩,
      .ok { peer_port := some 51413, active_count := "4", dl_speed := "100",
            ul_speed := "50" },
      .httpOk 200 "banana"⟩ =
      .fail { message := "E:PORTCHECK_UNEXPECTED_RESP",
              diag_context := some "P:51413(CLOSED) VPN:connected | DL/UL:100/50 | Act:4",
              portcheck_error := some { error := "E:PORTCHECK_UNEXPECTED_RESP",
                                        content := some "banana" } } := by
  have h := indeterminate_displays_closed 51413 51413 "connected"
    { peer_port := some 51413, active_count := "4", dl_speed := "100", ul_speed := "50" }
    (.httpOk 200 "banana")
    { error := "E:PORTCHECK_UNEXPECTED_RESP", content := some "banana" }
    (by decide) (by decide) rfl (by decide)
  exact h.1

/-- Claim C9: a gateway answer carrying the fields with falsy values —
port 0 or an empty status string — fails the cycle with exactly the same
`E:GLUETUN_PARSE` error as an answer missing the fields, whatever the
daemon RPC or the port probe would return (so the failure precedes, and is
independent of, any daemon call, and a forwarded port of 0 never reaches
the cross-check). -/
theorem gluetun_falsy_parse_failure (g : GluetunData)
    (h : g.port = some 0 ∨ g.status = some "") (rpc : Except String DaemonBundle)
    (pr : ProbeOutcome) :
    run_cycle ⟨.ok g, rpc, pr⟩ = .fail gluetunParseError ∧
    run_cycle ⟨.ok { port := none, status := none }, rpc, pr⟩ = .fail gluetunParseError := by
  obtain ⟨p, s⟩ := g
  refine ⟨?_, rfl⟩
  rcases h with h | h <;> simp only at h <;> subst h
  · cases s with
    | none => rfl
    | some vs => simp [run_cycle]
  · cases p with
    | none => rfl
    | some gp => simp [run_cycle]

/-- Witness for claim C9: gateway port 0 with a live status string fails
with the gluetun parse error even though the daemon RPC would itself have
raised. -/
theorem gluetun_falsy_parse_failure_witness :
    run_cycle ⟨.ok { port := some 0, status := some "connected" },
      .error "ConnectionError: daemon unreachable", .httpOk 200 "1"⟩ =
      .fail gluetunParseError := by
  exact (gluetun_falsy_parse_failure { port := some 0, status := some "connected" }
    (Or.inl rfl) (.error "ConnectionError: daemon unreachable") (.httpOk 200 "1")).1

/-! ## Claims about the truncation policies -/

theorem pytake_of_le (s : String) (n : Nat) (h : s.length ≤ n) : pytake s n = s := by
  cases s with
  | mk l => simp only [pytake]; rw [List.take_of_length_le h]

/-- Modelled from the spec (§4.5), for comparison with the code: render a
system-error torrent as the code, an id+name portion and an error-string
tail; when over the 100-character budget, truncate only the tail with an
ellipsis so the prefix survives; if the prefix leaves at most 4 usable
characters, drop the torrent name and retry the tail truncation; if still
at most 4 usable characters, hard-truncate the reduced prefix to 100. -/
def spec_torrent_bounded (code : String) (tid : Int) (name es : String) : String :=
  let idname := " T:" ++ toString tid ++ "(" ++ name ++ ")"
  let tail := ": " ++ es
  let rendered := code ++ idname ++ tail
  if rendered.length ≤ 100 then rendered
  else
    let budget : Int := 100 - ((code ++ idname).length : Int)
    if 4 < budget then code ++ idname ++ (pytake tail (budget - 3).toNat ++ "...")
    else
      let idonly := " T:" ++ toString tid
      let budget2 : Int := 100 - ((code ++ idonly).length : Int)
      if 4 < budget2 then code ++ idonly ++ (pytake tail (budget2 - 3).toNat ++ "...")
      else pytake (code ++ idonly) 100

theorem hc_torrent_eq_spec (msg : String) (ctx : Option String) (t : Torrent)
    (hfull : ¬ (HealthcheckError.full_message
      { message := msg, diag_context := ctx, torrent := some t }).length ≤ 100) :
    HealthcheckError.hc_message { message := msg, diag_context := ctx, torrent := some t } =
      spec_torrent_bounded msg t.id t.name t.errorString := by
  unfold HealthcheckError.hc_message spec_torrent_bounded
  dsimp only
  rw [if_neg hfull]

theorem torrent_particular (name es : String) (ctx : Option String)
    (h90 : name.length = 90) (h50 : es.length = 50) :
    (∃ u v, HealthcheckError.hc_message
        { message := "E:SYS_ERR", diag_context := ctx,
          torrent := some { id := 42, name := name, error := 3, errorString := es } } =
        u ++ "T:42" ++ v) ∧
    (∃ w, HealthcheckError.hc_message
        { message := "E:SYS_ERR", diag_context := ctx,
          torrent := some { id := 42, name := name, error := 3, errorString := es } } =
        w ++ "...") ∧
    (HealthcheckError.hc_message
        { message := "E:SYS_ERR", diag_context := ctx,
          torrent := some { id := 42, name := name, error := 3, errorString := es } }).length
      ≤ 100 := by
  have l9 : ("E:SYS_ERR" : String).length = 9 := rfl
  have l3 : (" T:" : String).length = 3 := rfl
  have lp : ("(" : String).length = 1 := rfl
  have lq : (")" : String).length = 1 := rfl
  have ld : (") - " : String).length = 4 := rfl
  have lb : (" | " : String).length = 3 := rfl
  have lc : (": " : String).length = 2 := rfl
  have l42 : (toString (42 : Int)).length = 2 := rfl
  have hfullEq : HealthcheckError.full_message
      { message := "E:SYS_ERR", diag_context := ctx,
        torrent := some { id := 42, name := name, error := 3, errorString := es } } =
      "E:SYS_ERR" ++ " T:" ++ toString (42 : Int) ++ "(" ++ name ++ ") - " ++ es
        ++ " | " ++ pyStr ctx := rfl
  have hfull : ¬ (HealthcheckError.full_message
      { message := "E:SYS_ERR", diag_context := ctx,
        torrent := some { id := 42, name := name, error := 3, errorString := es } }).length
      ≤ 100 := by
    rw [hfullEq]
    simp only [String.length_append, h90, h50, l9, l3, lp, lq, ld, lb, l42]
    omega
  rw [hc_torrent_eq_spec _ _ _ hfull]
  unfold spec_torrent_bounded
  dsimp only
  rw [if_neg (by
    simp only [String.length_append, h90, h50, l9, l3, lp, lq, lc, l42]
    omega)]
  rw [if_neg (by
    simp only [String.length_append, h90, h50, l9, l3, lp, lq, l42]
    omega)]
  rw [if_pos (by
    simp only [String.length_append, l9, l3, l42]
    omega)]
  have hk : ((100 : Int) - ↑("E:SYS_ERR" ++ (" T:" ++ toString (42 : Int))).length - 3).toNat
      = 83 := rfl
  rw [hk]
  have htail : pytake (": " ++ es) 83 = ": " ++ es := by
    refine pytake_of_le _ _ ?_
    simp only [String.length_append, lc, h50]
    omega
  rw [htail]
  refine ⟨⟨"E:SYS_ERR ", (": " ++ es) ++ "...", rfl⟩,
    ⟨"E:SYS_ERR" ++ (" T:" ++ toString (42 : Int)) ++ (": " ++ es),
      (String.append_assoc _ _ _)⟩, ?_⟩
  simp only [String.length_append, l9, l3, l42, lc, h50, length_ellipsis]
  omega

/-- Claim C5: for every system-error-torrent failure whose full message
exceeds 100 characters, the bounded message follows exactly the spec's
truncation policy (`spec_torrent_bounded`): render code + "T:{id}({name})"
+ ": {errorString}", truncate only the tail with an ellipsis while the
prefix survives, drop the name and retry when at most 4 usable characters
remain, and hard-truncate the reduced prefix to 100 as a last resort; in
particular, for id 42, a 90-character name and a 50-character error string,
the bounded message contains "T:42", ends with an ellipsis, and stays
within 100 characters. -/
theorem torrent_truncation :
    (∀ (msg : String) (ctx : Option String) (t : Torrent),
      100 < (HealthcheckError.full_message
        { message := msg, diag_context := ctx, torrent := some t }).length →
      HealthcheckError.hc_message { message := msg, diag_context := ctx, torrent := some t }
        = spec_torrent_bounded msg t.id t.name t.errorString) ∧
    (∀ (name es : String) (ctx : Option String), name.length = 90 → es.length = 50 →
      (∃ u v, HealthcheckError.hc_message
          { message := "E:SYS_ERR", diag_context := ctx,
            torrent := some { id := 42, name := name, error := 3, errorString := es } } =
          u ++ "T:42" ++ v) ∧
      (∃ w, HealthcheckError.hc_message
          { message := "E:SYS_ERR", diag_context := ctx,
            torrent := some { id := 42, name := name, error := 3, errorString := es } } =
          w ++ "...") ∧
      (HealthcheckError.hc_message
          { message := "E:SYS_ERR", diag_context := ctx,
            torrent := some { id := 42, name := name, error := 3, errorString := es } }).length
        ≤ 100) :=
  ⟨fun msg ctx t h => hc_torrent_eq_spec msg ctx t (by omega),
   fun name es ctx h90 h50 => torrent_particular name es ctx h90 h50⟩

/-- A 90-character torrent name. -/
def name90 : String := ⟨List.replicate 90 'n'⟩

/-- A 50-character torrent error string. -/
def errStr50 : String := ⟨List.replicate 50 'e'⟩

set_option maxRecDepth 8192 in
/-- Witness for claim C5 at a concrete torrent: id 42, 90-character name,
50-character error string. -/
theorem torrent_truncation_witness :
    HealthcheckError.hc_message
        { message := "E:SYS_ERR", diag_context := some "ctx",
          torrent := some { id := 42, name := name90, error := 3, errorString := errStr50 } }
      = spec_torrent_bounded "E:SYS_ERR" 42 name90 errStr50 ∧
    (HealthcheckError.hc_message
        { message := "E:SYS_ERR", diag_context := some "ctx",
          torrent := some { id := 42, name := name90, error := 3,
                            errorString := errStr50 } }).length ≤ 100 :=
  ⟨torrent_truncation.1 "E:SYS_ERR" (some "ctx")
      { id := 42, name := name90, error := 3, errorString := errStr50 } (by decide),
   (torrent_truncation.2 name90 errStr50 (some "ctx") (by decide) (by decide)).2.2⟩

/-- The 101-character message of an unexpected exception. -/
def longExnMsg : String := ⟨List.replicate 101 'x'⟩

set_option maxRecDepth 8192 in
/-- Counterexample to claim C7 as stated: an unexpected exception (here: the
gateway fetch raising with a 101-character message) is not routed through
the renderer at all — `main` sends `str(e)[:100]`, a hard 100-character
truncation with no ellipsis, which differs from the claimed 97-character
truncation plus ellipsis. -/
theorem unclassified_truncation_cex :
    100 < longExnMsg.length ∧
    fail_ping (run_cycle ⟨.error longExnMsg, .ok ({} : DaemonBundle), .httpOk 200 "1"⟩)
      = some (pytake longExnMsg 100) ∧
    pytake longExnMsg 100 ≠ pytake longExnMsg 97 ++ "..." := by
  refine ⟨by decide, rfl, by decide⟩

/-- Claim C7 (amended): a `HealthcheckError` failure with none of the
port-check, mismatch or torrent payloads whose full message exceeds 100
characters is sent as the full message truncated to 97 characters plus the
3-character ellipsis; an unexpected exception outside the
`HealthcheckError` taxonomy (the spec's `Unclassified`) is instead sent as
its raw message hard-truncated to 100 characters, with no ellipsis. -/
theorem plain_failure_truncation :
    (∀ (e : HealthcheckError), e.portcheck_error = none → e.mismatch_ports = none →
      e.torrent = none → 100 < e.full_message.length →
      e.hc_message = pytake e.full_message 97 ++ "...") ∧
    (∀ m : String, fail_ping (.exn m) = some (pytake m 100)) := by
  constructor
  · intro e hpc hmp htor hlong
    obtain ⟨msg, ctx, tor, mp, pc⟩ := e
    dsimp only at hpc hmp htor
    subst hpc hmp htor
    unfold HealthcheckError.hc_message
    dsimp only
    rw [if_neg (by omega)]
  · intro m
    rfl

/-- A payload-free failure whose message alone is 150 characters. -/
def longPlainErr : HealthcheckError := { message := ⟨List.replicate 150 'y'⟩ }

set_option maxRecDepth 8192 in
/-- Witness for claim C7's amended theorem: the 150-character payload-free
failure is truncated to 97 + ellipsis; a short unexpected exception is sent
as its (at most 100-character) raw text. -/
theorem plain_failure_truncation_witness :
    HealthcheckError.hc_message longPlainErr
      = pytake (HealthcheckError.full_message longPlainErr) 97 ++ "..." ∧
    fail_ping (.exn "boom") = some (pytake "boom" 100) :=
  ⟨plain_failure_truncation.1 longPlainErr rfl rfl rfl (by decide),
   plain_failure_truncation.2 "boom"⟩

end Healthcheck
